import Mathlib

/-!
Verification of the request-dispatch pipeline of the http-kit repository
(src/main.js, `createApiServer` and `send`).

The dispatcher is embedded shallowly: the per-request control flow of
`createApiServer` (src/main.js lines 25-131) becomes a pure function
`dispatch` over an explicit request value, a route table, a validator
table and a services record.  External collaborators are abstracted the
way the code consumes them: the JWT verifier (`jwt.verify`, which throws
on any verification failure) becomes `Services.jwtVerify : String → Option C`,
JSON parsing (`JSON.parse`, which throws on malformed input) becomes
`Services.jsonParse : List Nat → Option J`, and the compiled ajv
validators become a table of boolean predicates.  Response writes are
recorded as `(status, failure message)` pairs; the fixed content-type
and content-length headers that `send` derives from the message are a
function of that pair, so equality of write lists models byte equality
of responses on the wire.
-/

namespace HttpKit

/-- A JavaScript exception, as far as the dispatcher distinguishes them. -/
inductive JsErr : Type
  /-- `TypeError`, e.g. from a `for...of` loop over a non-iterable value. -/
  | typeError : JsErr
  /-- `ERR_HTTP_HEADERS_SENT`, thrown by `response.setHeader` after the
  response has already ended (src/main.js line 139 inside `send`). -/
  | headersSent : JsErr
  /-- `SyntaxError`, thrown by `JSON.parse` on malformed input. -/
  | syntaxError : JsErr
deriving DecidableEq

/-- The mutable response object, reduced to what the dispatcher observes:
the headers set on it by route-header injection, the terminal writes
performed by `send` as `(status, failure message)` pairs, and the
`writableEnded` flag. -/
structure Resp : Type where
  headersSet : List (String × String)
  writes : List (Nat × String)
  ended : Bool
deriving DecidableEq

/-- A fresh response: nothing set, nothing written, not ended. -/
def Resp.init : Resp := ⟨[], [], false⟩

/-- Pipeline stages that actually executed for a request, in order. -/
inductive Stage : Type
  | auth : Stage
  | headers : Stage
  | body : Stage
  | prepare : Stage
  | validate : Stage
  | respond : Stage
deriving DecidableEq

/-- Everything observable about the processing of one request: the final
response state, the trace of pipeline stages that ran, the body chunks
that were buffered into `parts` (src/main.js line 89), and whether the
request stream was destroyed (line 85). -/
structure Outcome : Type where
  resp : Resp
  trace : List Stage
  buffered : List (List Nat)
  destroyed : Bool
deriving DecidableEq

/-- An in-flight request.  `Q`, `H` are the types of the parsed query and
of the raw header mapping as the validator sees them, `J` the type of
parsed JSON values, `C` the type of decoded session claims.  Body chunks
are byte lists (`Buffer.byteLength` is their length). -/
structure Req (Q H J C : Type) : Type where
  method : String
  pathname : String
  query : Q
  reqHeaders : H
  contentType : Option String
  contentLength : Option Nat
  tokenCookie : Option String
  chunks : List (List Nat)
  body : Option J
  session : Option C

/-- A route descriptor, as `createApiServer` consumes it.  Delegates are
modelled as functions on the request and response; `headers` is the
plain-object mapping of header names to values the documentation
prescribes; `limit` is the declared byte limit (`none` = absent). -/
structure Route (Q H J C : Type) : Type where
  respond : Option (Req Q H J C → Resp → Resp)
  authenticate : Bool
  headers : Option (List (String × String))
  json : Bool
  accept : Option Unit
  limit : Option Nat
  prepare : Option (Req Q H J C → Resp → Req Q H J C × Resp)

/-- External collaborators: the token verifier with the secret already
applied (`jwt.verify(token, services.jwtSecret)`; `none` models any
verification throw), and `JSON.parse` on the concatenated body bytes
(`none` models a parse throw). -/
structure Services (J C : Type) : Type where
  jwtVerify : String → Option C
  jsonParse : List Nat → Option J

/-- The object validated against the compiled route schema
(src/main.js lines 112-116). -/
structure VData (Q H J : Type) : Type where
  query : Q
  headers : H
  body : Option J
deriving Repr

variable {Q H J C : Type}

/-- `routes.hasOwnProperty(endpoint)` lookup over the merged route table,
represented as an association list. -/
def lookupRoute : List (String × Route Q H J C) → String → Option (Route Q H J C)
  | [], _ => none
  | (k, r) :: rest, e => if k = e then some r else lookupRoute rest e

/-- `response.end` via `send` (src/main.js lines 134-143): sets the status
and the derived content headers and ends the response.  If the response
has already ended, `response.setHeader` throws `ERR_HTTP_HEADERS_SENT`
before anything reaches the wire. -/
def sendW (r : Resp) (status : Nat) (msg : String) : Except JsErr Resp :=
  if r.ended then .error .headersSent
  else .ok { headersSet := r.headersSet, writes := r.writes ++ [(status, msg)], ended := true }

/-- Result of one pipeline stage: continue with an updated state, return
early from the handler (a terminal `return send(...)` or a bare
`return`), propagate an exception up through the handler body (where
the outer catch can see it), or abandon the handler entirely with an
exception thrown in an event-listener frame.  The last case models a
throw inside a stream listener callback: that frame is outside the
async handlers dynamic scope, so the exception reaches neither
try/catch and becomes a process-level uncaughtException, the awaited
promise never settles, the handler never resumes, and nothing further
is written to the response. -/
inductive StageRes (α : Type) : Type
  | next : α → StageRes α
  | done : Outcome → StageRes α
  | thrown : JsErr → Outcome → StageRes α
  | uncaught : JsErr → Outcome → StageRes α

/-- Sequencing of stages: an early return, an in-scope exception or a
listener-frame exception short-circuits the rest of the handler body. -/
def StageRes.bind {α β : Type} : StageRes α → (α → StageRes β) → StageRes β
  | .next a, f => f a
  | .done o, _ => .done o
  | .thrown e o, _ => .thrown e o
  | .uncaught e o, _ => .uncaught e o

/-- Record that a stage executed. -/
def addTrace (o : Outcome) (s : Stage) : Outcome := { o with trace := o.trace ++ [s] }

/-- A terminal `return send(response, status, msg)`: ends dispatch if the
send succeeds, propagates the exception if `send` throws. -/
def sendDone {α : Type} (o : Outcome) (status : Nat) (msg : String) : StageRes α :=
  match sendW o.resp status msg with
  | .ok r => .done { o with resp := r }
  | .error e => .thrown e o

def notFoundMsg : String := "Not found."
def forbiddenMsg : String := "Forbidden."
def notJsonMsg : String := "Content-Type is not application/json."
def tooLargeMsg : String := "Content was too large for this request."
def parseFailMsg : String := "Message could not parse as JSON."
def invalidMsg : String := "Message is invalid."
def internalErrMsg : String := "Internal server error."

/-- JavaScript regexp whitespace class membership for the characters that
can occur here (`\s`). -/
def isJsSpace (c : Char) : Bool :=
  c = ' ' || c = '\t' || c = '\n' || c = '\r' || c = Char.ofNat 11 || c = Char.ofNat 12

/-- Does `pat` occur as a leading segment of `cs`?  Returns the remainder. -/
def stripLead : List Char → List Char → Option (List Char)
  | [], cs => some cs
  | _ :: _, [] => none
  | p :: ps, c :: cs => if c = p then stripLead ps cs else none

/-- The character list of the literal the content-type regexp begins with. -/
def ctLit : List Char := String.toList "application/json"

/-- The test performed by the regexp on src/main.js line 66,
`^application\/json(?:\s*)(?:[;]|$)` : the subject starts with
`application/json`, then optional whitespace, then either a semicolon or
the end of the string. -/
def ctRegexTest (s : String) : Bool :=
  match stripLead ctLit s.toList with
  | none => false
  | some rest =>
      match rest.dropWhile isJsSpace with
      | [] => true
      | c :: _ => c = ';'

/-- The string JavaScript hands to `RegExp.test` for the content-type
header: the header value when present, the coercion of `undefined`
otherwise. -/
def jsHeaderStr : Option String → String
  | some s => s
  | none => "undefined"

/-- `route.limit || 1048576` (src/main.js line 72): a missing or zero
(falsy) declared limit yields the 1 MiB default. -/
def effLimit : Option Nat → Nat
  | none => 1048576
  | some n => if n = 0 then 1048576 else n

/-- `request.headers[..] > limit` for the content-length header
(src/main.js line 75): an absent header compares as `NaN`, hence false. -/
def clExceeds : Option Nat → Nat → Bool
  | none, _ => false
  | some n, limit => decide (limit < n)

/-- Total byte size of a chunk list. -/
def sizeSum (chunks : List (List Nat)) : Nat := (chunks.map List.length).sum

/-- The `data` event loop (src/main.js lines 80-90): accumulate the byte
count; the chunk that pushes the total over the limit is not buffered
and aborts the stream.  Returns the buffered chunks and whether the
stream was aborted. -/
def pump (limit : Nat) : Nat → List (List Nat) → List (List Nat) → List (List Nat) × Bool
  | _, acc, [] => (acc.reverse, false)
  | size, acc, c :: rest =>
      let size2 := size + c.length
      if limit < size2 then (acc.reverse, true)
      else pump limit size2 (c :: acc) rest

/-- Authentication stage (src/main.js lines 43-55): when the route demands
it, a missing `token` cookie or any verification failure is answered
with 403; on success the decoded claims are attached to the request. -/
def authStage (route : Route Q H J C) (svc : Services J C) (req : Req Q H J C)
    (o : Outcome) : StageRes (Req Q H J C × Outcome) :=
  if route.authenticate then
    let o1 := addTrace o .auth
    match req.tokenCookie with
    | none => sendDone o1 403 forbiddenMsg
    | some tok =>
        match svc.jwtVerify tok with
        | none => sendDone o1 403 forbiddenMsg
        | some claims => .next ({ req with session := some claims }, o1)
  else .next (req, o)

/-- Header-injection stage (src/main.js lines 57-62).  The code iterates
`route.headers` with `for (const key of route.headers)`; the header table
is a plain object (see docs/index.md), which is not iterable, so the
loop header throws a `TypeError` before any `setHeader` call runs. -/
def headersStage (route : Route Q H J C) (o : Outcome) : StageRes Outcome :=
  match route.headers with
  | none => .next o
  | some _pairs => .thrown .typeError (addTrace o .headers)

/-- Body-ingestion stage (src/main.js lines 64-103).  Runs when
`route.json` is set or when `accept` is undeclared and the method is not
GET.  The content-type test 406s exactly when the regexp matches; then
the declared content length is checked against the effective limit; then
the body is streamed.  A mid-stream overflow sends 413 and destroys the
stream; the destroy error is delivered through the `error` listener
(line 96), which calls `reject`, so the awaited promise rejects and the
surrounding catch then attempts `send(response, 400, ...)`, which throws
`ERR_HTTP_HEADERS_SENT` since the 413 already ended the response.  A
completed stream is concatenated and parsed by
`resolve(JSON.parse(Buffer.concat(parts)))` INSIDE the `end` listener
(line 93): if `JSON.parse` throws there, the throw happens in the
listener frame, not in the promise executor and not under either
try/catch of the handler, so it does not reject the promise — it
becomes a process-level uncaughtException, the await never resumes, the
catch on lines 100-102 never runs, and no response is written.  Only a
successful parse resolves the promise and lets the handler continue. -/
def bodyStage (route : Route Q H J C) (svc : Services J C) (req : Req Q H J C)
    (o : Outcome) : StageRes (Req Q H J C × Outcome) :=
  if route.json || (route.accept.isNone && !(req.method = "GET")) then
    let o1 := addTrace o .body
    if ctRegexTest (jsHeaderStr req.contentType) then
      sendDone o1 406 notJsonMsg
    else
      let limit := effLimit route.limit
      if clExceeds req.contentLength limit then
        sendDone o1 413 tooLargeMsg
      else
        match pump limit 0 [] req.chunks with
        | (buffered, true) =>
            let o2 := { o1 with buffered := buffered, destroyed := true }
            match sendW o2.resp 413 tooLargeMsg with
            | .error e => .thrown e o2
            | .ok r413 =>
                let o3 := { o2 with resp := r413 }
                match sendW o3.resp 400 parseFailMsg with
                | .error e => .thrown e o3
                | .ok r => .done { o3 with resp := r }
        | (buffered, false) =>
            let o2 := { o1 with buffered := buffered }
            match svc.jsonParse buffered.flatten with
            | none => .uncaught .syntaxError o2
            | some j => .next ({ req with body := some j }, o2)
  else .next (req, o)

/-- Prepare stage (src/main.js lines 105-109): the delegate runs, and then
the code returns from the handler when `response.writableEnded` is
false, continuing only when the delegate already ended the response. -/
def prepareStage (route : Route Q H J C) (req : Req Q H J C) (o : Outcome) :
    StageRes (Req Q H J C × Outcome) :=
  match route.prepare with
  | none => .next (req, o)
  | some p =>
      let pr := p req o.resp
      let o1 := { addTrace o .prepare with resp := pr.2 }
      if pr.2.ended then .next (pr.1, o1) else .done o1

/-- Validation stage (src/main.js lines 111-120): the compiled route
predicate is applied to the query, headers and body of the request
context; rejection is answered with 400. -/
def validateStage (v : VData Q H J → Bool) (req : Req Q H J C) (o : Outcome) :
    StageRes (Req Q H J C × Outcome) :=
  let o1 := addTrace o .validate
  if v ⟨req.query, req.reqHeaders, req.body⟩ then .next (req, o1)
  else sendDone o1 400 invalidMsg

/-- Respond stage (src/main.js line 123): the route delegate runs. -/
def respondStage (rf : Req Q H J C → Resp → Resp) (req : Req Q H J C)
    (o : Outcome) : StageRes Outcome :=
  let o1 := addTrace o .respond
  .next { o1 with resp := rf req o1.resp }

/-- The outer catch (src/main.js lines 124-130): an exception propagating
through the handler body is answered with 500, unless a response has
already been written.  A listener-frame exception never reaches this
catch: the handler is suspended on a promise that will never settle, so
the response state is simply left as it was. -/
def finalize : StageRes Outcome → Outcome
  | .next o => o
  | .done o => o
  | .thrown _ o =>
      if o.resp.ended then o
      else
        match sendW o.resp 500 internalErrMsg with
        | .ok r => { o with resp := r }
        | .error _ => o
  | .uncaught _ o => o

/-- The request handler returned by `createApiServer` (src/main.js lines
25-131): resolve the endpoint key, then authenticate, inject headers,
ingest the body, prepare, validate and respond, each stage able to end
the request early; uncaught exceptions fall to the outer catch. -/
def dispatch (routes : List (String × Route Q H J C))
    (vald : String → VData Q H J → Bool) (svc : Services J C)
    (req0 : Req Q H J C) : Outcome :=
  let o0 : Outcome := ⟨Resp.init, [], [], false⟩
  let endpoint := req0.method ++ " " ++ req0.pathname
  finalize <|
    match lookupRoute routes endpoint with
    | none => sendDone o0 404 notFoundMsg
    | some route =>
        match route.respond with
        | none => sendDone o0 404 notFoundMsg
        | some rf =>
            (authStage route svc req0 o0).bind fun s1 =>
            (headersStage route s1.2).bind fun o2 =>
            (bodyStage route svc s1.1 o2).bind fun s3 =>
            (prepareStage route s3.1 s3.2).bind fun s4 =>
            (validateStage (vald endpoint) s4.1 s4.2).bind fun s5 =>
            respondStage rf s5.1 s5.2

/-- Index of the first chunk whose arrival pushes the accumulated size
over the limit, starting from a given accumulated size. -/
def abortIdx (limit : Nat) : Nat → List (List Nat) → Nat
  | _, [] => 0
  | size, c :: rest =>
      if limit < size + c.length then 0 else abortIdx limit (size + c.length) rest + 1

/-! Concrete fixtures instantiating the abstract value types at `Unit`,
used to exhibit concrete runs of the dispatcher. -/

abbrev URoute : Type := Route Unit Unit Unit Unit
abbrev UReq : Type := Req Unit Unit Unit Unit

def successMsg : String := "ok"
def ctJson : String := "application/json"
def ctPlain : String := "text/plain"
def badToken : String := "tampered-or-expired"

/-- A response delegate in the style of the documentation: it sends a 200
with `send`.  If the response has already ended, `send` throws
`ERR_HTTP_HEADERS_SENT` before writing; the outer catch then sees an
ended response and leaves it alone, so the net effect is no change. -/
def respond200 : UReq → Resp → Resp := fun _ rs =>
  match sendW rs 200 successMsg with
  | .ok r => r
  | .error _ => rs

/-- A prepare delegate that only inspects the request and returns without
writing anything to the response (the normal use of `prepare` per
docs/index.md: clean up request values before validation). -/
def prepareSilent : UReq → Resp → UReq × Resp := fun rq rs => (rq, rs)

/-- A prepare delegate that ends the response itself with a 201. -/
def prepare201 : UReq → Resp → UReq × Resp := fun rq rs =>
  (rq, match sendW rs 201 successMsg with
       | .ok r => r
       | .error _ => rs)

def baseRoute : URoute :=
  { respond := some respond200
    authenticate := false
    headers := none
    json := false
    accept := some ()
    limit := none
    prepare := none }

/-- A route that requires JSON body ingestion. -/
def jroute : URoute := { baseRoute with json := true }

/-- A route declaring a CORS-style header mapping (docs/index.md). -/
def hroute : URoute := { baseRoute with headers := some [("Access-Control-Allow-Origin", "*")] }

/-- A JSON route with a declared body limit of 5 bytes. -/
def lroute : URoute := { jroute with limit := some 5 }

/-- A route with a silent prepare delegate. -/
def proute : URoute := { baseRoute with prepare := some prepareSilent }

/-- A route whose prepare delegate already writes a terminal response. -/
def proute2 : URoute := { baseRoute with prepare := some prepare201 }

/-- A route that requires authentication. -/
def aroute : URoute := { baseRoute with authenticate := true }

def baseReq : UReq :=
  { method := "POST"
    pathname := "/t"
    query := ()
    reqHeaders := ()
    contentType := none
    contentLength := none
    tokenCookie := none
    chunks := []
    body := none
    session := none }

def reqGET : UReq := { baseReq with method := "GET" }

/-- Services where token verification throws and `JSON.parse` throws. -/
def svcReject : Services Unit Unit :=
  { jwtVerify := fun _ => none, jsonParse := fun _ => none }

/-- Services where token verification and `JSON.parse` succeed. -/
def svcAccept : Services Unit Unit :=
  { jwtVerify := fun _ => some (), jsonParse := fun _ => some () }

/-- A compiled validator table that accepts everything. -/
def valdT : String → VData Unit Unit Unit → Bool := fun _ _ => true

/-- A compiled validator table that rejects everything. -/
def valdF : String → VData Unit Unit Unit → Bool := fun _ _ => false

/-! Helper lemmas about the streaming loop. -/

theorem pump_no_abort (chunks : List (List Nat)) (limit : Nat) :
    ∀ (size : Nat) (acc : List (List Nat)), size + sizeSum chunks ≤ limit →
      pump limit size acc chunks = (acc.reverse ++ chunks, false) := by
  induction chunks with
  | nil => intro size acc _; simp [pump]
  | cons c rest ih =>
      intro size acc hle
      have hsz : sizeSum (c :: rest) = c.length + sizeSum rest := by
        simp [sizeSum]
      rw [hsz] at hle
      have hnot : ¬ limit < size + c.length := by omega
      have hrec := ih (size + c.length) (c :: acc) (by omega)
      simp [pump, hnot, hrec]

theorem pump_abort (chunks : List (List Nat)) (limit : Nat) :
    ∀ (size : Nat) (acc : List (List Nat)), size ≤ limit →
      limit < size + sizeSum chunks →
      pump limit size acc chunks
        = (acc.reverse ++ chunks.take (abortIdx limit size chunks), true) := by
  induction chunks with
  | nil => intro size acc hle hlt; simp [sizeSum] at hlt; omega
  | cons c rest ih =>
      intro size acc hle hlt
      have hsz : sizeSum (c :: rest) = c.length + sizeSum rest := by simp [sizeSum]
      rw [hsz] at hlt
      by_cases hc : limit < size + c.length
      · simp [pump, abortIdx, hc]
      · have hrec := ih (size + c.length) (c :: acc) (by omega) (by omega)
        simp [pump, abortIdx, hc, hrec]

theorem abortIdx_size_le (chunks : List (List Nat)) (limit : Nat) :
    ∀ size : Nat, size ≤ limit →
      size + sizeSum (chunks.take (abortIdx limit size chunks)) ≤ limit := by
  induction chunks with
  | nil => intro size hle; simpa [abortIdx, sizeSum] using hle
  | cons c rest ih =>
      intro size hle
      by_cases hc : limit < size + c.length
      · simp [abortIdx, hc, sizeSum]; omega
      · have hrec := ih (size + c.length) (by omega)
        simp only [abortIdx, hc, if_false, List.take_succ_cons]
        have : sizeSum (c :: List.take (abortIdx limit (size + c.length) rest) rest)
            = c.length + sizeSum (List.take (abortIdx limit (size + c.length) rest) rest) := by
          simp [sizeSum]
        omega

/-- Routes that differ only in their declared limit, with equal effective
limits, dispatch identically. -/
theorem dispatch_limit_congr (k : String) (route : Route Q H J C) (x y : Option Nat)
    (h : effLimit x = effLimit y) (vald : String → VData Q H J → Bool)
    (svc : Services J C) (req : Req Q H J C) :
    dispatch [(k, { route with limit := x })] vald svc req
      = dispatch [(k, { route with limit := y })] vald svc req := by
  by_cases hk : k = req.method ++ " " ++ req.pathname
  · dsimp only [dispatch, lookupRoute]
    rw [if_pos hk, if_pos hk]
    dsimp only [authStage, headersStage, bodyStage, prepareStage, validateStage, respondStage]
    simp only [h]
  · dsimp only [dispatch, lookupRoute]
    rw [if_neg hk, if_neg hk]

/-- C1 (counter-evidence): the claim states that a present Content-Type
that does not match application/json is answered 406 with the message
"Content-Type is not application/json.", while an absent header lets
body ingestion proceed.  The code (src/main.js line 66) applies the
regexp test without negation, so it answers 406 exactly when the header
DOES match application/json: a request with Content-Type
application/json on a JSON route is answered 406, while a request with
Content-Type text/plain proceeds through body ingestion to a 200; an
absent header also proceeds. -/
theorem c1_content_type_check_inverted :
    (dispatch [("POST /t", jroute)] valdT svcAccept
        { baseReq with contentType := some ctJson }).resp.writes
      = [(406, notJsonMsg)]
    ∧ (dispatch [("POST /t", jroute)] valdT svcAccept
        { baseReq with contentType := some ctPlain }).resp.writes
      = [(200, successMsg)]
    ∧ (dispatch [("POST /t", jroute)] valdT svcAccept baseReq).resp.writes
      = [(200, successMsg)] := by
  refine ⟨?_, ?_, ?_⟩ <;> rfl

/-- C2 (counter-evidence): the claim states that a completed body that is
not valid JSON is answered 400 with "Message could not parse as JSON.",
the parse error being caught rather than escaping the handler.  In the
code, `JSON.parse` runs inside the `end` event listener
(src/main.js line 93): its throw happens in the listener frame, outside
both try/catch scopes of the handler, so the promise never rejects, the
catch on lines 100-102 never runs, and nothing is written — the
exception escapes as a process-level uncaughtException.  Evaluated at a
one-byte body the parser rejects: the body stage ends in the
listener-frame-exception state, and the dispatched request finishes with
zero writes, an un-ended response, and no respond invocation. -/
theorem c2_parse_throw_escapes_handler :
    bodyStage jroute svcReject
        { baseReq with contentType := some ctPlain, chunks := [[123]] }
        ⟨Resp.init, [], [], false⟩
      = .uncaught .syntaxError ⟨Resp.init, [Stage.body], [[123]], false⟩
    ∧ (dispatch [("POST /t", jroute)] valdT svcReject
        { baseReq with contentType := some ctPlain, chunks := [[123]] }).resp
      = ⟨[], [], false⟩
    ∧ Stage.respond ∉ (dispatch [("POST /t", jroute)] valdT svcReject
        { baseReq with contentType := some ctPlain, chunks := [[123]] }).trace := by
  refine ⟨rfl, rfl, ?_⟩
  decide

/-- C3 (counter-evidence): the claim states that a non-empty `headers`
mapping on a route is applied to the response before body and
validation work, without terminating the request.  The code iterates it
with `for (const key of route.headers)` (src/main.js line 59); a plain
object mapping, as the documentation prescribes, is not iterable, so
the loop throws a TypeError, the outer catch answers 500, and no header
is ever set. -/
theorem c3_headers_mapping_raises_typeError :
    dispatch [("GET /t", hroute)] valdT svcAccept reqGET
      = ⟨⟨[], [(500, internalErrMsg)], true⟩, [Stage.headers], [], false⟩ := by
  rfl

/-- C4: when the streamed body overruns the effective limit, the chunk
that pushes the accumulated size over the limit triggers a single 413
write, destroys the request stream, and is not buffered; only the
chunks strictly before it are, so the buffered size never exceeds the
limit, and the route delegate never runs.  This holds whatever the
declared Content-Length was, as long as it passed the upfront check. -/
theorem c4_stream_over_limit_413 (routes : List (String × Route Q H J C))
    (vald : String → VData Q H J → Bool) (svc : Services J C) (req : Req Q H J C)
    (route : Route Q H J C) (rf : Req Q H J C → Resp → Resp)
    (h1 : lookupRoute routes (req.method ++ " " ++ req.pathname) = some route)
    (h2 : route.respond = some rf)
    (h3 : route.authenticate = false)
    (h4 : route.headers = none)
    (h5 : route.json = true)
    (h6 : ctRegexTest (jsHeaderStr req.contentType) = false)
    (h7 : clExceeds req.contentLength (effLimit route.limit) = false)
    (h8 : effLimit route.limit < sizeSum req.chunks) :
    (dispatch routes vald svc req).resp.writes = [(413, tooLargeMsg)]
    ∧ (dispatch routes vald svc req).destroyed = true
    ∧ (dispatch routes vald svc req).buffered
        = req.chunks.take (abortIdx (effLimit route.limit) 0 req.chunks)
    ∧ sizeSum (dispatch routes vald svc req).buffered ≤ effLimit route.limit
    ∧ Stage.respond ∉ (dispatch routes vald svc req).trace := by
  have hp : pump (effLimit route.limit) 0 [] req.chunks
      = (req.chunks.take (abortIdx (effLimit route.limit) 0 req.chunks), true) := by
    have := pump_abort req.chunks (effLimit route.limit) 0 [] (Nat.zero_le _) (by omega)
    simpa using this
  have hsz := abortIdx_size_le req.chunks (effLimit route.limit) 0 (Nat.zero_le _)
  simp [dispatch, h1, h2, authStage, h3, headersStage, h4, bodyStage, h5, h6, h7, hp,
    sendDone, sendW, Resp.init, addTrace, StageRes.bind, finalize]
  omega

/-- Witness for C4: with a 5-byte limit and no declared Content-Length,
chunks of sizes 3, 3 and 1 abort at the second chunk: one 413 write,
stream destroyed, only the first chunk buffered. -/
theorem c4_stream_over_limit_413_witness :
    (dispatch [("POST /t", lroute)] valdT svcAccept
        { baseReq with chunks := [[1, 2, 3], [4, 5, 6], [7]] }).resp.writes
      = [(413, tooLargeMsg)]
    ∧ (dispatch [("POST /t", lroute)] valdT svcAccept
        { baseReq with chunks := [[1, 2, 3], [4, 5, 6], [7]] }).destroyed = true
    ∧ (dispatch [("POST /t", lroute)] valdT svcAccept
        { baseReq with chunks := [[1, 2, 3], [4, 5, 6], [7]] }).buffered
        = List.take (abortIdx (effLimit lroute.limit) 0 [[1, 2, 3], [4, 5, 6], [7]])
            [[1, 2, 3], [4, 5, 6], [7]]
    ∧ sizeSum (dispatch [("POST /t", lroute)] valdT svcAccept
        { baseReq with chunks := [[1, 2, 3], [4, 5, 6], [7]] }).buffered
        ≤ effLimit lroute.limit
    ∧ Stage.respond ∉ (dispatch [("POST /t", lroute)] valdT svcAccept
        { baseReq with chunks := [[1, 2, 3], [4, 5, 6], [7]] }).trace :=
  c4_stream_over_limit_413 _ _ _ _ lroute respond200
    rfl rfl rfl rfl rfl rfl rfl (by decide)

/-- C5 (counter-evidence): the claim states that every request receives
exactly one terminal response, the only silent paths being delegates
that deliberately return without writing.  The prepare check
(src/main.js line 108) reads `if (!response.writableEnded) return`,
which is inverted relative to the spec: a prepare delegate that merely
inspects the request and writes nothing makes the dispatcher return
silently, so the request gets zero writes and the respond delegate
never runs; conversely a prepare delegate that already wrote a terminal
response does NOT stop dispatch, and the respond delegate is invoked on
an already-ended response. -/
theorem c5_silent_prepare_leaves_request_unanswered :
    (dispatch [("GET /t", proute)] valdT svcAccept reqGET).resp = ⟨[], [], false⟩
    ∧ Stage.respond ∉ (dispatch [("GET /t", proute)] valdT svcAccept reqGET).trace
    ∧ Stage.respond ∈ (dispatch [("GET /t", proute2)] valdT svcAccept reqGET).trace := by
  refine ⟨rfl, ?_, ?_⟩ <;> decide

/-- C6: on a route requiring authentication, a missing token cookie and a
token that fails verification (tampered, expired or malformed, all of
which make jwt.verify throw) produce the same outcome: one 403 write
with message "Forbidden.", identical response state in every failure
cause, and the respond delegate never runs. -/
theorem c6_auth_failure_uniform_403 (routes : List (String × Route Q H J C))
    (vald : String → VData Q H J → Bool) (svc : Services J C) (req : Req Q H J C)
    (route : Route Q H J C) (rf : Req Q H J C → Resp → Resp)
    (h1 : lookupRoute routes (req.method ++ " " ++ req.pathname) = some route)
    (h2 : route.respond = some rf)
    (h3 : route.authenticate = true)
    (h4 : req.tokenCookie = none
      ∨ ∃ t, req.tokenCookie = some t ∧ svc.jwtVerify t = none) :
    (dispatch routes vald svc req).resp = ⟨[], [(403, forbiddenMsg)], true⟩
    ∧ Stage.respond ∉ (dispatch routes vald svc req).trace := by
  rcases h4 with h4 | ⟨t, ht, hv⟩
  · simp [dispatch, h1, h2, authStage, h3, h4, sendDone, sendW, Resp.init, addTrace,
      StageRes.bind, finalize]
  · simp [dispatch, h1, h2, authStage, h3, ht, hv, sendDone, sendW, Resp.init, addTrace,
      StageRes.bind, finalize]

/-- Witness for C6: both the cookie-less request and the request with an
unverifiable token get the identical 403 response and no delegate call. -/
theorem c6_auth_failure_uniform_403_witness :
    ((dispatch [("GET /t", aroute)] valdT svcReject reqGET).resp
        = ⟨[], [(403, forbiddenMsg)], true⟩
      ∧ Stage.respond ∉ (dispatch [("GET /t", aroute)] valdT svcReject reqGET).trace)
    ∧ ((dispatch [("GET /t", aroute)] valdT svcReject
          { reqGET with tokenCookie := some badToken }).resp
        = ⟨[], [(403, forbiddenMsg)], true⟩
      ∧ Stage.respond ∉ (dispatch [("GET /t", aroute)] valdT svcReject
          { reqGET with tokenCookie := some badToken }).trace) :=
  ⟨c6_auth_failure_uniform_403 _ _ _ _ aroute respond200 rfl rfl rfl (Or.inl rfl),
   c6_auth_failure_uniform_403 _ _ _ _ aroute respond200 rfl rfl rfl
     (Or.inr ⟨badToken, rfl, rfl⟩)⟩

/-- C7: a declared Content-Length exceeding the effective limit is
answered with a single 413 write while the body stream is untouched: no
chunk is buffered, the stream is not destroyed by the dispatcher, and
the respond delegate never runs, regardless of the actual chunks. -/
theorem c7_content_length_precheck_413 (routes : List (String × Route Q H J C))
    (vald : String → VData Q H J → Bool) (svc : Services J C) (req : Req Q H J C)
    (route : Route Q H J C) (rf : Req Q H J C → Resp → Resp) (n : Nat)
    (h1 : lookupRoute routes (req.method ++ " " ++ req.pathname) = some route)
    (h2 : route.respond = some rf)
    (h3 : route.authenticate = false)
    (h4 : route.headers = none)
    (h5 : route.json = true)
    (h6 : ctRegexTest (jsHeaderStr req.contentType) = false)
    (hn : req.contentLength = some n)
    (h7 : effLimit route.limit < n) :
    (dispatch routes vald svc req).resp.writes = [(413, tooLargeMsg)]
    ∧ (dispatch routes vald svc req).buffered = []
    ∧ (dispatch routes vald svc req).destroyed = false
    ∧ Stage.respond ∉ (dispatch routes vald svc req).trace := by
  simp [dispatch, h1, h2, authStage, h3, headersStage, h4, bodyStage, h5, h6,
    clExceeds, hn, h7, sendDone, sendW, Resp.init, addTrace, StageRes.bind, finalize]

/-- Witness for C7: declared length 6 over a 5-byte limit is answered 413
with nothing buffered, even though a chunk was available. -/
theorem c7_content_length_precheck_413_witness :
    (dispatch [("POST /t", lroute)] valdT svcAccept
        { baseReq with contentLength := some 6, chunks := [[1]] }).resp.writes
      = [(413, tooLargeMsg)]
    ∧ (dispatch [("POST /t", lroute)] valdT svcAccept
        { baseReq with contentLength := some 6, chunks := [[1]] }).buffered = []
    ∧ (dispatch [("POST /t", lroute)] valdT svcAccept
        { baseReq with contentLength := some 6, chunks := [[1]] }).destroyed = false
    ∧ Stage.respond ∉ (dispatch [("POST /t", lroute)] valdT svcAccept
        { baseReq with contentLength := some 6, chunks := [[1]] }).trace :=
  c7_content_length_precheck_413 _ _ _ _ lroute respond200 6
    rfl rfl rfl rfl rfl rfl rfl (by decide)

/-- C8: for a request that reaches validation (here: a route with no
authentication, no header mapping, no body ingestion and no prepare
delegate), a rejecting compiled schema predicate yields one 400 write
with message "Message is invalid." and the respond delegate never runs,
while an accepting predicate leads to the respond delegate running. -/
theorem c8_validation_gate (routes : List (String × Route Q H J C))
    (vald : String → VData Q H J → Bool) (svc : Services J C) (req : Req Q H J C)
    (route : Route Q H J C) (rf : Req Q H J C → Resp → Resp)
    (h1 : lookupRoute routes (req.method ++ " " ++ req.pathname) = some route)
    (h2 : route.respond = some rf)
    (h3 : route.authenticate = false)
    (h4 : route.headers = none)
    (h5 : route.json = false)
    (h6 : route.accept = some ())
    (h7 : route.prepare = none) :
    (vald (req.method ++ " " ++ req.pathname) ⟨req.query, req.reqHeaders, req.body⟩ = false →
      (dispatch routes vald svc req).resp.writes = [(400, invalidMsg)]
      ∧ Stage.respond ∉ (dispatch routes vald svc req).trace)
    ∧ (vald (req.method ++ " " ++ req.pathname) ⟨req.query, req.reqHeaders, req.body⟩ = true →
      Stage.respond ∈ (dispatch routes vald svc req).trace) := by
  constructor <;> intro hv <;>
    simp [dispatch, h1, h2, authStage, h3, headersStage, h4, bodyStage, h5, h6, h7,
      prepareStage, validateStage, respondStage, hv,
      sendDone, sendW, Resp.init, addTrace, StageRes.bind, finalize]

/-- Witness for C8: under an all-rejecting validator table the request is
answered 400 with the validation message and no delegate call. -/
theorem c8_validation_gate_witness :
    (dispatch [("GET /t", baseRoute)] valdF svcAccept reqGET).resp.writes
      = [(400, invalidMsg)]
    ∧ Stage.respond ∉ (dispatch [("GET /t", baseRoute)] valdF svcAccept reqGET).trace :=
  (c8_validation_gate [("GET /t", baseRoute)] valdF svcAccept reqGET baseRoute respond200
    rfl rfl rfl rfl rfl rfl rfl).1 rfl

/-- C9: an endpoint key absent from the route table, or present with no
respond delegate, is answered with exactly one 404 write carrying the
failure message "Not found.", and no pipeline stage runs at all. -/
theorem c9_unregistered_endpoint_404 (routes : List (String × Route Q H J C))
    (vald : String → VData Q H J → Bool) (svc : Services J C) (req : Req Q H J C)
    (h : lookupRoute routes (req.method ++ " " ++ req.pathname) = none
      ∨ ∃ route, lookupRoute routes (req.method ++ " " ++ req.pathname) = some route
          ∧ route.respond = none) :
    dispatch routes vald svc req = ⟨⟨[], [(404, notFoundMsg)], true⟩, [], [], false⟩ := by
  rcases h with h | ⟨route, hr, hn⟩
  · simp [dispatch, h, sendDone, sendW, Resp.init, finalize]
  · simp [dispatch, hr, hn, sendDone, sendW, Resp.init, finalize]

/-- Witness for C9: the empty route table answers 404 with an empty stage
trace. -/
theorem c9_unregistered_endpoint_404_witness :
    dispatch ([] : List (String × URoute)) valdT svcAccept baseReq
      = ⟨⟨[], [(404, notFoundMsg)], true⟩, [], [], false⟩ :=
  c9_unregistered_endpoint_404 _ _ _ _ (Or.inl rfl)

/-- C10: a declared limit of 0 (the falsy value of type number) and an
absent limit both give the 1,048,576-byte default: the effective limit
is the default, and the whole dispatch (hence both the upfront
Content-Length check and the per-chunk streaming check) behaves exactly
as with an explicit 1,048,576-byte limit. -/
theorem c10_zero_limit_is_default (k : String) (route : Route Q H J C)
    (vald : String → VData Q H J → Bool) (svc : Services J C) (req : Req Q H J C) :
    effLimit (some 0) = 1048576
    ∧ effLimit none = 1048576
    ∧ dispatch [(k, { route with limit := some 0 })] vald svc req
        = dispatch [(k, { route with limit := some 1048576 })] vald svc req
    ∧ dispatch [(k, { route with limit := none })] vald svc req
        = dispatch [(k, { route with limit := some 1048576 })] vald svc req :=
  ⟨rfl, rfl, dispatch_limit_congr k route (some 0) (some 1048576) rfl vald svc req,
    dispatch_limit_congr k route none (some 1048576) rfl vald svc req⟩

end HttpKit
